import Mathlib

/-
  Verification of the PeakTech backend design shipped in this repository
  (contact-form intake, project-portfolio CRUD, JWT auth, upload filter,
  central error middleware).  Every definition below is a shallow embedding
  of the JavaScript shown in the repository sources: the mongoose Project
  schema with its pre-save slug hook, the project controllers and routes,
  the auth middleware, the contact controller, schema and routes, the
  multer image-upload filter and the central error handler.
-/

namespace XTech

/-! ## Character and string helpers -/

/-- JS word character class from the regexes in the sources:
letters, digits and underscore. -/
def wordC (c : Char) : Bool := c.isAlpha || c.isDigit || c == '_'

/-- Whitespace recognised by the mongoose trim setter. -/
def isWs (c : Char) : Bool := c == ' ' || c == '\t' || c == '\n' || c == '\r'

/-- Mongoose trim setter: strip leading and trailing whitespace. -/
def trimStr (s : String) : String :=
  String.mk (((s.toList.dropWhile isWs).reverse.dropWhile isWs).reverse)

/-- Lowercasing as used by toLowerCase and the mongoose lowercase setter
(ASCII inputs). -/
def lowerStr (s : String) : String := String.mk (s.toList.map Char.toLower)

/-- Semantics of the JS global regex replace of one-or-more runs,
replace of a slash X plus slash global pattern with a fixed string:
scanning left to right, a character inside an already replaced run emits
nothing, a character opening a run emits the replacement, any other
character is copied. -/
def replaceRuns (p : Char → Bool) (r : List Char) : Bool → List Char → List Char
  | _, [] => []
  | inRun, c :: cs =>
    if p c then (if inRun then [] else r) ++ replaceRuns p r true cs
    else c :: replaceRuns p r false cs

/-- The slug computation of the Project pre-save hook in src/main.js:
title lowercased, characters outside word-or-space deleted, runs of
spaces replaced by a single hyphen. -/
def slugifyL (l : List Char) : List Char :=
  replaceRuns (fun c => c == ' ') ['-']
    false (replaceRuns (fun c => !(wordC c || c == ' ')) [] false (l.map Char.toLower))

/-- String form of the pre-save slug hook. -/
def slugify (s : String) : String := String.mk (slugifyL s.toList)

/-! ## The slug rule as the specification words it

The spec states the rule as: lowercase the title, delete every character
that is neither a word character nor a space, and replace each maximal
run of spaces with a single hyphen.  `specSlug` renders those words
directly; it is compared with `slugify` (the embedding of the code). -/

/-- Replace each maximal run of spaces by one hyphen: consume the whole
run, emit one hyphen. -/
def specCollapse : List Char → List Char
  | [] => []
  | c :: cs =>
    if c == ' ' then '-' :: specCollapse (cs.dropWhile (fun x => x == ' '))
    else c :: specCollapse cs
  termination_by l => l.length
  decreasing_by
    · simp only [List.length_cons]
      exact Nat.lt_succ_of_le ((List.dropWhile_sublist _).length_le)
    · simp

/-- The slug derivation rule as the specification words it. -/
def specSlugL (l : List Char) : List Char :=
  specCollapse ((l.map Char.toLower).filter (fun c => wordC c || c == ' '))

/-- String form of the slug rule from the specification words. -/
def specSlug (s : String) : String := String.mk (specSlugL s.toList)

/-! ## Email pattern

The Contact schema validates email against the regex written in the
sources: caret backslash-w plus, an optional dot-or-dash then word-run
group starred, an at sign, the same shape for the domain, then one or
more groups of a literal dot followed by two or three word characters,
dollar.  The pattern is embedded as a small regex syntax tree and run by
a fuel-bounded backtracking matcher. -/

inductive Rx where
  | eps : Rx
  | cls (p : Char → Bool) : Rx
  | seq (a b : Rx) : Rx
  | alt (a b : Rx) : Rx
  | star (a : Rx) : Rx

/-- Backtracking matcher with a continuation; the fuel only bounds
nesting and iteration depth, and every star iteration must consume
input, mirroring the regex engine on this pattern. -/
def rmatch : Nat → Rx → List Char → (List Char → Bool) → Bool
  | 0, _, _, _ => false
  | _ + 1, Rx.eps, s, k => k s
  | _ + 1, Rx.cls p, s, k =>
    match s with
    | [] => false
    | c :: cs => p c && k cs
  | n + 1, Rx.seq a b, s, k => rmatch n a s (fun s2 => rmatch n b s2 k)
  | n + 1, Rx.alt a b, s, k => rmatch n a s k || rmatch n b s k
  | n + 1, Rx.star a, s, k =>
    k s || rmatch n a s (fun s2 => decide (s2.length < s.length) && rmatch n (Rx.star a) s2 k)

/-- One or more repetitions. -/
def rxPlus (a : Rx) : Rx := Rx.seq a (Rx.star a)

/-- Zero or one repetition. -/
def rxOpt (a : Rx) : Rx := Rx.alt a Rx.eps

/-- A single literal character. -/
def rxChr (c : Char) : Rx := Rx.cls (fun x => x == c)

/-- The word-character class. -/
def rxW : Rx := Rx.cls wordC

/-- The dot-or-dash character class of the email pattern. -/
def rxDotDash : Rx := Rx.cls (fun c => c == '.' || c == '-')

/-- The email regex of the Contact schema, node for node. -/
def emailRx : Rx :=
  Rx.seq (rxPlus rxW) <| Rx.seq (Rx.star (Rx.seq (rxOpt rxDotDash) (rxPlus rxW))) <|
    Rx.seq (rxChr '@') <| Rx.seq (rxPlus rxW) <|
      Rx.seq (Rx.star (Rx.seq (rxOpt rxDotDash) (rxPlus rxW)))
        (rxPlus (Rx.seq (rxChr '.') (Rx.seq rxW (Rx.seq rxW (rxOpt rxW)))))

/-- Anchored match of the whole string against the email pattern. -/
def emailMatch (s : String) : Bool :=
  rmatch (64 * (s.length + 2)) emailRx s.toList (fun rest => rest.isEmpty)

/-! ## Substring test and file extension, for the upload filter -/

/-- Whether the pattern is a prefix of the list. -/
def hasPref : List Char → List Char → Bool
  | _, [] => true
  | [], _ :: _ => false
  | c :: cs, p :: ps => c == p && hasPref cs ps

/-- Whether the pattern occurs anywhere in the list: the JS test method
of an unanchored alternation regex checks containment. -/
def hasInf : List Char → List Char → Bool
  | [], pat => pat.isEmpty
  | c :: cs, pat => hasPref (c :: cs) pat || hasInf cs pat

/-- Substring containment on strings. -/
def containsSub (s pat : String) : Bool := hasInf s.toList pat.toList

/-- The test of the unanchored regex jpeg-or-jpg-or-png-or-webp used by
checkFileType: true when the string contains one of the four tokens. -/
def ftTest (s : String) : Bool :=
  containsSub s "jpeg" || containsSub s "jpg" || containsSub s "png" || containsSub s "webp"

/-- Node path.extname on a bare file name: from the last dot to the end,
empty when there is no dot or the only dot is the leading character. -/
def extname (s : String) : String :=
  let l := s.toList
  let idxs := (List.range l.length).filter (fun i => l.getD i ' ' == '.')
  match idxs.getLast? with
  | none => ""
  | some 0 => ""
  | some i => String.mk (l.drop i)

/-! ## Users, tokens and the auth middleware (middleware/auth.js) -/

/-- An admin-site user as stored in the Users collection. -/
structure User where
  id : Nat
  role : String
deriving DecidableEq

/-- A decoded JWT as the middleware sees it: the encoded user id, plus
the facts jwt.verify checks (signature validity and expiry). -/
structure Jwt where
  sub : Nat
  sigOk : Bool
  expired : Bool
deriving DecidableEq

/-- jwt.verify: the id when the signature is good and the token is not
expired, otherwise a thrown error, rendered as none. -/
def jwtVerify (t : Jwt) : Option Nat :=
  if t.sigOk && !t.expired then some t.sub else none

/-- User.findById over the Users collection. -/
def findUserById (users : List User) (uid : Nat) : Option User :=
  users.find? (fun u => u.id == uid)

/-- Outcome of the protect middleware: a 401 rejection, or control is
passed on with req.user attached, possibly null. -/
inductive ProtectResult where
  | authErr401 : ProtectResult
  | next (user : Option User) : ProtectResult
deriving DecidableEq

/-- The protect middleware: no token or failed verification yields 401;
otherwise req.user is set to the findById result, which can be null, and
the request is passed on. -/
def protect (users : List User) (tok : Option Jwt) : ProtectResult :=
  match tok with
  | none => ProtectResult.authErr401
  | some t =>
    match jwtVerify t with
    | none => ProtectResult.authErr401
    | some uid => ProtectResult.next (findUserById users uid)

/-- Outcome of the authorize middleware: reading role off a null
req.user throws a TypeError, a role outside the allowed list yields the
403 error, otherwise control passes with the user. -/
inductive AuthzResult where
  | nullDeref : AuthzResult
  | forbidden (role : String) : AuthzResult
  | next (u : User) : AuthzResult
deriving DecidableEq

/-- The authorize middleware over the attached req.user. -/
def authorize (roles : List String) (ru : Option User) : AuthzResult :=
  match ru with
  | none => AuthzResult.nullDeref
  | some u =>
    if roles.any (fun r => r == u.role) then AuthzResult.next u
    else AuthzResult.forbidden u.role

/-- Combined result of running protect then authorize, as the routes
compose them. -/
inductive GateResult where
  | err401 : GateResult
  | nullUser : GateResult
  | err403 (role : String) : GateResult
  | pass (u : User) : GateResult
deriving DecidableEq

/-- The middleware chain protect then authorize used on every mutating
route. -/
def roleGate (roles : List String) (users : List User) (tok : Option Jwt) : GateResult :=
  match protect users tok with
  | ProtectResult.authErr401 => GateResult.err401
  | ProtectResult.next ru =>
    match authorize roles ru with
    | AuthzResult.nullDeref => GateResult.nullUser
    | AuthzResult.forbidden r => GateResult.err403 r
    | AuthzResult.next u => GateResult.pass u

/-- The contact management routes all run protect then authorize with
the single role admin. -/
def contactManageGate (users : List User) (tok : Option Jwt) : GateResult :=
  roleGate ["admin"] users tok

/-! ## The Project model (server/models/Project.js) -/

/-- A stored Project document.  Testimonial and the date fields of the
schema are omitted: no claim constrains them. -/
structure Project where
  id : Nat
  title : String
  slug : String
  client : String
  description : String
  shortDescription : String
  categories : List String
  technologies : List String
  features : List String
  thumbnailImage : String
  galleryImages : List String
  projectUrl : Option String
  featured : Bool
  createdBy : Nat
deriving DecidableEq

/-- The category enum of the schema. -/
def projectCategories : List String := ["AI", "Mobile", "Web", "UI/UX"]

/-- The schema validators: required fields nonempty, title at most 100
characters, short description at most 200, categories a nonempty list
drawn from the enum, technologies nonempty.  Slug carries no validator;
uniqueness is an index property outside single-document validation. -/
def projectValid (p : Project) : Bool :=
  p.title != "" && decide (p.title.length ≤ 100) &&
    p.client != "" && p.description != "" &&
    p.shortDescription != "" && decide (p.shortDescription.length ≤ 200) &&
    !p.categories.isEmpty &&
    p.categories.all (fun c => projectCategories.any (fun e => e == c)) &&
    !p.technologies.isEmpty && p.thumbnailImage != ""

/-- The request body handed to Project.create by the controller. -/
structure ProjectBody where
  title : String
  client : String
  description : String
  shortDescription : String
  categories : List String
  technologies : List String
  features : List String := []
  thumbnailImage : String
  galleryImages : List String := []
  projectUrl : Option String := none
  featured : Bool := false
deriving DecidableEq

/-- Project.create: trim setters apply on assignment, the validators
run, and then the pre-save hook fills the slug from the title.  Mongoose
registers validation as a save hook that runs before user save hooks, so
the hook output is not itself validated; slug has no validator anyway. -/
def mongooseCreateProject (body : ProjectBody) (creator : Nat) (newId : Nat) :
    Except (List String) Project :=
  let base : Project :=
    { id := newId
      title := trimStr body.title
      slug := ""
      client := trimStr body.client
      description := body.description
      shortDescription := body.shortDescription
      categories := body.categories
      technologies := body.technologies
      features := body.features
      thumbnailImage := body.thumbnailImage
      galleryImages := body.galleryImages
      projectUrl := body.projectUrl
      featured := body.featured
      createdBy := creator }
  if projectValid base then Except.ok { base with slug := slugify base.title }
  else Except.error ["ValidationError"]

/-- Response envelope of the project controllers. -/
structure ProjResp where
  status : Nat
  success : Bool
  error : Option String := none
  data : Option Project := none
deriving DecidableEq

/-- Project.findById over the collection. -/
def findById (projects : List Project) (pid : Nat) : Option Project :=
  projects.find? (fun p => p.id == pid)

/-- createProject: the controller copies the acting user id into the
body and calls Project.create; 201 with the document on success, a
validation failure becomes a 400 through the central handler. -/
def createProjectCtrl (u : User) (body : ProjectBody) (newId : Nat)
    (projects : List Project) : List Project × ProjResp :=
  match mongooseCreateProject body u.id newId with
  | Except.ok doc =>
    (projects ++ [doc], { status := 201, success := true, data := some doc })
  | Except.error _ =>
    (projects, { status := 400, success := false, error := some "ValidationError" })

/-- A findByIdAndUpdate request body: present fields overwrite the
stored document, absent fields keep it. -/
structure UpdateBody where
  title : Option String := none
  slug : Option String := none
  client : Option String := none
  description : Option String := none
  shortDescription : Option String := none
  categories : Option (List String) := none
  technologies : Option (List String) := none
  features : Option (List String) := none
  thumbnailImage : Option String := none
  galleryImages : Option (List String) := none
  projectUrl : Option String := none
  featured : Option Bool := none
  createdBy : Option Nat := none
deriving DecidableEq

/-- Merging an update body into a document, with the trim setters
applied, exactly what findByIdAndUpdate writes: no save hook runs, so
the slug is only touched when the body carries one. -/
def applyUpdate (p : Project) (b : UpdateBody) : Project :=
  { p with
    title := trimStr (b.title.getD p.title)
    slug := b.slug.getD p.slug
    client := trimStr (b.client.getD p.client)
    description := b.description.getD p.description
    shortDescription := b.shortDescription.getD p.shortDescription
    categories := b.categories.getD p.categories
    technologies := b.technologies.getD p.technologies
    features := b.features.getD p.features
    thumbnailImage := b.thumbnailImage.getD p.thumbnailImage
    galleryImages := b.galleryImages.getD p.galleryImages
    projectUrl := match b.projectUrl with | some v => some v | none => p.projectUrl
    featured := b.featured.getD p.featured
    createdBy := b.createdBy.getD p.createdBy }

/-- updateProject: 404 when absent; the in-controller ownership check
answers 401 when the caller is neither the creator nor an admin; then
findByIdAndUpdate with runValidators writes the merged document. -/
def updateProjectCtrl (projects : List Project) (u : User) (pid : Nat)
    (body : UpdateBody) : List Project × ProjResp :=
  match findById projects pid with
  | none =>
    (projects,
      { status := 404, success := false
        error := some ("Project not found with id of " ++ toString pid) })
  | some proj =>
    if proj.createdBy != u.id && u.role != "admin" then
      (projects,
        { status := 401, success := false
          error := some ("User " ++ toString u.id ++ " is not authorized to update this project") })
    else
      let updated := applyUpdate proj body
      if projectValid updated then
        (projects.map (fun p => if p.id == pid then updated else p),
          { status := 200, success := true, data := some updated })
      else
        (projects, { status := 400, success := false, error := some "ValidationError" })

/-- deleteProject: 404 when absent; the same in-controller ownership
check answering 401; then the document is removed. -/
def deleteProjectCtrl (projects : List Project) (u : User) (pid : Nat) :
    List Project × ProjResp :=
  match findById projects pid with
  | none =>
    (projects,
      { status := 404, success := false
        error := some ("Project not found with id of " ++ toString pid) })
  | some proj =>
    if proj.createdBy != u.id && u.role != "admin" then
      (projects,
        { status := 401, success := false
          error := some ("User " ++ toString u.id ++ " is not authorized to delete this project") })
    else
      (projects.filter (fun p => p.id != pid), { status := 200, success := true })

/-- Envelope of the protect middleware 401, through the central handler. -/
def resp401 : ProjResp :=
  { status := 401, success := false, error := some "Not authorized to access this route" }

/-- Envelope of the authorize middleware 403, through the central handler. -/
def resp403 (role : String) : ProjResp :=
  { status := 403, success := false
    error := some ("User role " ++ role ++ " is not authorized to access this route") }

/-- Envelope of the TypeError raised by reading role off a null user:
no statusCode, so the central handler answers 500. -/
def resp500 : ProjResp := { status := 500, success := false, error := some "Server Error" }

/-- The route PUT on projects slash id: protect, authorize admin, then
the update controller. -/
def runUpdateProject (users : List User) (tok : Option Jwt) (projects : List Project)
    (pid : Nat) (body : UpdateBody) : List Project × ProjResp :=
  match roleGate ["admin"] users tok with
  | GateResult.err401 => (projects, resp401)
  | GateResult.nullUser => (projects, resp500)
  | GateResult.err403 r => (projects, resp403 r)
  | GateResult.pass u => updateProjectCtrl projects u pid body

/-- The route DELETE on projects slash id: protect, authorize admin,
then the delete controller. -/
def runDeleteProject (users : List User) (tok : Option Jwt) (projects : List Project)
    (pid : Nat) : List Project × ProjResp :=
  match roleGate ["admin"] users tok with
  | GateResult.err401 => (projects, resp401)
  | GateResult.nullUser => (projects, resp500)
  | GateResult.err403 r => (projects, resp403 r)
  | GateResult.pass u => deleteProjectCtrl projects u pid

/-! ## The Contact model and controller (models/Contact.js,
controllers/contactController.js) -/

/-- The contact form body as the controller destructures it: absent
fields arrive as the empty string, which the required validators reject
just as they reject missing values. -/
structure ContactBody where
  firstName : String
  lastName : String
  email : String
  company : String := ""
  message : String
deriving DecidableEq

/-- A stored Contact document. -/
structure ContactRec where
  firstName : String
  lastName : String
  email : String
  company : String
  message : String
  status : String
  dateSubmitted : Nat
  lastUpdated : Nat
deriving DecidableEq

/-- The document the submit controller builds: the schema trim setters
apply to every string field, the email is additionally lowercased, the
status is the literal new, and dateSubmitted is the current time. -/
def mkContact (body : ContactBody) (now : Nat) : ContactRec :=
  { firstName := trimStr body.firstName
    lastName := trimStr body.lastName
    email := lowerStr (trimStr body.email)
    company := trimStr body.company
    message := trimStr body.message
    status := "new"
    dateSubmitted := now
    lastUpdated := now }

/-- The validator messages of the Contact schema, in field order; the
match validator fires on a present email failing the pattern. -/
def contactErrMsgs (c : ContactRec) : List String :=
  (if c.firstName == "" then ["First name is required"] else []) ++
    (if c.lastName == "" then ["Last name is required"] else []) ++
    (if c.email == "" then ["Email is required"]
      else if !emailMatch c.email then ["Please provide a valid email"] else []) ++
    (if c.message == "" then ["Message is required"] else [])

/-- A document passes validation exactly when no validator message
fires. -/
def contactValid (c : ContactRec) : Bool := (contactErrMsgs c).isEmpty

/-- Storage-layer failure of a document save. -/
inductive DbErr where
  | validationError (msgs : List String) : DbErr
deriving DecidableEq

/-- newContact.save: the document, or a ValidationError rejection. -/
def contactSave (c : ContactRec) : Except DbErr ContactRec :=
  if contactValid c then Except.ok c
  else Except.error (DbErr.validationError (contactErrMsgs c))

/-- Whether a save outcome is a ValidationError rejection. -/
def isValidationFailure : Except DbErr ContactRec → Bool
  | Except.error (DbErr.validationError _) => true
  | Except.ok _ => false

/-- An outbound email handed to sendEmail; the address field is named
to in the source. -/
structure EmailMsg where
  toAddr : String
  subject : String
  text : String
deriving DecidableEq

/-- The notification to the fixed administrative address, with the raw
body fields interpolated as the controller writes them. -/
def adminMsg (body : ContactBody) : EmailMsg :=
  { toAddr := "admin@peaktech.com"
    subject := "New Contact Form Submission"
    text := "New inquiry from " ++ body.firstName ++ " " ++ body.lastName ++
      " (" ++ body.email ++ ")" }

/-- The confirmation to the submitter, addressed to the raw body email. -/
def userMsg (body : ContactBody) : EmailMsg :=
  { toAddr := body.email
    subject := "Thank you for contacting PeakTech"
    text := "Dear " ++ body.firstName ++
      ", thank you for reaching out to us. We\x27ll be in touch shortly." }

/-- Response envelope of the submit controller. -/
structure SubmitResp where
  status : Nat
  success : Bool
  message : String
deriving DecidableEq

/-- The catch branch of the submit controller. -/
def contactSubmitErr : SubmitResp :=
  { status := 500, success := false, message := "There was a problem submitting your form" }

/-- The success response of the submit controller. -/
def contactSubmitOk : SubmitResp :=
  { status := 201, success := true, message := "Contact form submitted successfully" }

/-- submitContact: build the document, await save, then await the admin
notification and the submitter confirmation in that order, answering 201
only after both; any throw lands in the catch, which answers the generic
500 and rolls nothing back.  The send argument says whether a given
email dispatch succeeds; the middle component lists the dispatches
attempted, in order. -/
def submitContact (store : List ContactRec) (body : ContactBody) (now : Nat)
    (send : EmailMsg → Bool) : List ContactRec × List EmailMsg × SubmitResp :=
  let c := mkContact body now
  match contactSave c with
  | Except.error _ => (store, [], contactSubmitErr)
  | Except.ok saved =>
    let store2 := store ++ [saved]
    let m1 := adminMsg body
    if send m1 then
      let m2 := userMsg body
      if send m2 then (store2, [m1, m2], contactSubmitOk)
      else (store2, [m1, m2], contactSubmitErr)
    else (store2, [m1], contactSubmitErr)

/-- Modelled from the spec: the updateContact controller behind the PUT
contact route is not present in the sources, only its route registration
is; per the specification, updating a contact status sets the new status
and refreshes lastUpdated. -/
def updateContactStatus (c : ContactRec) (newStatus : String) (now : Nat) : ContactRec :=
  { c with status := newStatus, lastUpdated := now }

/-! ## The image upload filter (multer setup in the project guide) -/

/-- An uploaded file as multer presents it. -/
structure UpFile where
  originalname : String
  mimetype : String
  size : Nat
deriving DecidableEq

/-- checkFileType: the unanchored regex is tested against the lowercased
extension and against the mimetype; both must pass, else the error
message. -/
def checkFileType (f : UpFile) : Option String :=
  let extOk := ftTest (lowerStr (extname f.originalname))
  let mimeOk := ftTest f.mimetype
  if mimeOk && extOk then none else some "Only image files are allowed"

/-- The multer single-file middleware: the 5000000 byte limit, then the
file filter; yields an error message or the accepted file, if any. -/
def multerSingle (f : Option UpFile) : Option String × Option UpFile :=
  match f with
  | none => (none, none)
  | some file =>
    if file.size > 5000000 then (some "File too large", none)
    else
      match checkFileType file with
      | some m => (some m, none)
      | none => (none, some file)

/-- Response envelope of the upload controller. -/
structure UploadResp where
  status : Nat
  success : Bool
  error : Option String := none
  fileName : Option String := none
  filePath : Option String := none
deriving DecidableEq

/-- uploadProjectImage: a multer error becomes a 400, a missing file a
400, an accepted file a 200 carrying the stored name built from the
upload time and the original extension, plus its public path. -/
def uploadProjectImage (f : Option UpFile) (now : Nat) : UploadResp :=
  match multerSingle f with
  | (some m, _) => { status := 400, success := false, error := some m }
  | (none, none) => { status := 400, success := false, error := some "Please upload a file" }
  | (none, some file) =>
    let fname := "project-" ++ toString now ++ extname file.originalname
    { status := 200, success := true, fileName := some fname
      filePath := some ("/uploads/projects/" ++ fname) }

/-- The reading of claim C7: the extension proper, dot stripped and
lowercased, is literally one of the four allowed types. -/
def extExactlyAllowed (name : String) : Bool :=
  let e := lowerStr (extname name)
  let bare := match e.toList with
    | '.' :: r => String.mk r
    | _ => e
  ["jpeg", "jpg", "png", "webp"].any (fun t => t == bare)

/-! ## The central error handler (middleware/error.js) -/

/-- The response error field: a string, or the array of validator
messages a ValidationError produces. -/
inductive ErrMsg where
  | str (v : String) : ErrMsg
  | arr (vs : List String) : ErrMsg
deriving DecidableEq

/-- An error object as the handler receives it. -/
structure JsErr where
  name : String := "Error"
  message : String := ""
  code : Option Nat := none
  statusCode : Option Nat := none
  errMsgs : List String := []
deriving DecidableEq

/-- The uniform error envelope. -/
structure ErrEnvelope where
  status : Nat
  success : Bool
  error : ErrMsg
deriving DecidableEq

/-- The central handler: a CastError name maps to 404, a code 11000
duplicate key to 400 with the fixed human-readable message, a
ValidationError name to 400 with the collected messages; the response
status falls back to 500 and a falsy (empty string) message to the
generic Server Error text. -/
def errorHandler (err : JsErr) : ErrEnvelope :=
  let e0 : Option Nat × ErrMsg := (err.statusCode, ErrMsg.str err.message)
  let e1 := if err.name == "CastError" then (some 404, ErrMsg.str "Resource not found") else e0
  let e2 := if err.code == some 11000 then
      (some 400, ErrMsg.str "Duplicate field value entered") else e1
  let e3 := if err.name == "ValidationError" then (some 400, ErrMsg.arr err.errMsgs) else e2
  { status := e3.1.getD 500
    success := false
    error :=
      match e3.2 with
      | ErrMsg.str "" => ErrMsg.str "Server Error"
      | m => m }

/-- A duplicate-key error as the storage driver raises it. -/
def dupKeyErr (msg : String) : JsErr :=
  { name := "MongoServerError", message := msg, code := some 11000 }

/-! ## Concrete documents used by the claim instances -/

/-- An acting admin user. -/
def demoUser : User := { id := 1, role := "admin" }

/-- A valid creation payload whose title is the example of the spec. -/
def demoProjectBody : ProjectBody :=
  { title := "AI & Ops: v2!"
    client := "ACME"
    description := "An operations platform"
    shortDescription := "Ops platform"
    categories := ["AI"]
    technologies := ["Python"]
    thumbnailImage := "thumb.png" }

/-- The document created from the demo payload. -/
def demoProject : Project :=
  { id := 1
    title := "AI & Ops: v2!"
    slug := "ai-ops-v2"
    client := "ACME"
    description := "An operations platform"
    shortDescription := "Ops platform"
    categories := ["AI"]
    technologies := ["Python"]
    features := []
    thumbnailImage := "thumb.png"
    galleryImages := []
    projectUrl := none
    featured := false
    createdBy := 1 }

/-- A stored project whose slug was derived from its original title. -/
def c2Project : Project :=
  { id := 1
    title := "Old Name"
    slug := "old-name"
    client := "ACME"
    description := "Legacy site"
    shortDescription := "Site"
    categories := ["Web"]
    technologies := ["JS"]
    features := []
    thumbnailImage := "t.png"
    galleryImages := []
    projectUrl := none
    featured := false
    createdBy := 9 }

/-- The owner of the stored project, an admin. -/
def c2Admin : User := { id := 9, role := "admin" }

/-- An update body that changes the title and carries no slug. -/
def c2Body : UpdateBody := { title := some "New Title" }

/-- An update body that changes nothing. -/
def emptyUpdate : UpdateBody := {}

/-- An authenticated editor who owns a project. -/
def c3Owner : User := { id := 1, role := "editor" }

/-- A valid token for the editor. -/
def c3Jwt : Jwt := { sub := 1, sigOk := true, expired := false }

/-- The project created by the editor. -/
def c3Project : Project :=
  { id := 1
    title := "Portfolio Site"
    slug := "portfolio-site"
    client := "ACME"
    description := "A site"
    shortDescription := "Site"
    categories := ["Web"]
    technologies := ["JS"]
    features := []
    thumbnailImage := "t.png"
    galleryImages := []
    projectUrl := none
    featured := false
    createdBy := 1 }

/-- An authenticated user with a role outside the admin gate. -/
def c3wUser : User := { id := 2, role := "viewer" }

/-- A valid token for that user. -/
def c3wJwt : Jwt := { sub := 2, sigOk := true, expired := false }

/-- A well-formed contact form submission. -/
def demoContactBody : ContactBody :=
  { firstName := "John"
    lastName := "Doe"
    email := "john.doe@example.com"
    company := "ACME"
    message := "Hello" }

/-- A send oracle on which the admin notification dispatch fails. -/
def failSend : EmailMsg → Bool := fun m => m.toAddr != "admin@peaktech.com"

/-- A contact submission carrying a syntactically invalid email. -/
def c6Body : ContactBody :=
  { firstName := "Ada"
    lastName := "Lovelace"
    email := "not-an-email"
    message := "hello" }

/-- A file whose extension is none of the four allowed types but
contains one of them as a substring, with an allowed content type. -/
def c7File : UpFile := { originalname := "a.xjpg", mimetype := "image/png", size := 1 }

/-- A plainly acceptable image file. -/
def c7Good : UpFile := { originalname := "logo.png", mimetype := "image/png", size := 1024 }

/-- An authenticated editor, for the contact management routes. -/
def c9Editor : User := { id := 2, role := "editor" }

/-- A valid token for the editor. -/
def c9Jwt : Jwt := { sub := 2, sigOk := true, expired := false }

/-- A token that verifies but whose id resolves to no stored user. -/
def c10Jwt : Jwt := { sub := 5, sigOk := true, expired := false }

/-! ## Refinement: the pre-save hook computes the specified slug rule -/

theorem replaceRuns_del_eq_filter (p : Char → Bool) :
    ∀ (b : Bool) (l : List Char), replaceRuns p [] b l = l.filter (fun c => !p c) := by
  intro b l
  induction l generalizing b with
  | nil => simp [replaceRuns]
  | cons c cs ih =>
    by_cases hc : p c
    · simp [replaceRuns, hc, ih true]
    · simp [replaceRuns, hc, ih false]

theorem replaceRuns_dash_eq_specCollapse :
    ∀ l : List Char,
      replaceRuns (fun c => c == ' ') ['-'] false l = specCollapse l ∧
      replaceRuns (fun c => c == ' ') ['-'] true l =
        specCollapse (l.dropWhile (fun x => x == ' ')) := by
  intro l
  induction l with
  | nil => simp [replaceRuns, specCollapse]
  | cons c cs ih =>
    by_cases hc : c = ' '
    · subst hc
      constructor
      · simp [replaceRuns, specCollapse, ih.2]
      · simpa [replaceRuns, List.dropWhile] using ih.2
    · have hb : (c == ' ') = false := by simpa using hc
      constructor
      · simp [replaceRuns, specCollapse, hb, ih.1]
      · simp [replaceRuns, specCollapse, List.dropWhile, hb, ih.1]

theorem slugify_eq_specSlug (s : String) : slugify s = specSlug s := by
  unfold slugify specSlug slugifyL specSlugL
  rw [replaceRuns_del_eq_filter]
  rw [(replaceRuns_dash_eq_specCollapse _).1]
  congr 2
  apply List.filter_congr
  intro c _
  simp

/-! ## Claim C1 -/

/-- Claim C1: for every valid Project payload, create stores a slug
obtained from the title by lowercasing it, deleting every character that
is neither a word character nor a space, and replacing each maximal run
of spaces with a single hyphen; in particular the title
AI ampersand Ops colon v2 bang yields the slug ai-ops-v2. -/
theorem C1_create_derives_spec_slug :
    (∀ (body : ProjectBody) (creator newId : Nat) (doc : Project),
      mongooseCreateProject body creator newId = Except.ok doc →
      doc.slug = specSlug doc.title) ∧
    (∀ (u : User) (body : ProjectBody) (newId : Nat) (projects : List Project) (doc : Project),
      mongooseCreateProject body u.id newId = Except.ok doc →
      createProjectCtrl u body newId projects =
        (projects ++ [doc], { status := 201, success := true, data := some doc })) ∧
    slugify "AI & Ops: v2!" = "ai-ops-v2" := by
  refine ⟨?_, ?_, by decide⟩
  · intro body creator newId doc h
    simp only [mongooseCreateProject] at h
    split_ifs at h with hv
    · injection h with h2
      subst h2
      exact slugify_eq_specSlug _
  · intro u body newId projects doc h
    simp [createProjectCtrl, h]

/-- Witness for C1 at the demo payload: creation succeeds and the
stored slug satisfies the specified derivation rule. -/
theorem C1_witness :
    mongooseCreateProject demoProjectBody 1 1 = Except.ok demoProject ∧
    demoProject.slug = specSlug demoProject.title :=
  ⟨rfl, C1_create_derives_spec_slug.1 demoProjectBody 1 1 demoProject rfl⟩

/-! ## Claim C2 -/

/-- Counterexample to claim C2 as stated: an admin updates the title of
an existing project through updateProject (findByIdAndUpdate); the
stored document keeps slug old-name although the derivation rule applied
to the new title gives new-title, so the slug invariant is not preserved
by the update operation. -/
theorem C2_counterexample :
    (updateProjectCtrl [c2Project] c2Admin 1 c2Body).1 =
      [{ c2Project with title := "New Title" }] ∧
    ({ c2Project with title := "New Title" } : Project).slug = "old-name" ∧
    slugify "New Title" = "new-title" ∧
    ("old-name" : String) ≠ "new-title" :=
  ⟨by decide, rfl, rfl, by decide⟩

/-- Claim C2 as amended: creation derives the slug from the title
through the pre-save hook, but the update operation writes through
findByIdAndUpdate, which runs no save hook: when the update body carries
no slug the stored slug keeps its previous value even if the title
changes. -/
theorem C2_update_keeps_old_slug :
    ∀ (projects : List Project) (u : User) (pid : Nat) (b : UpdateBody) (proj : Project),
      b.slug = none → findById projects pid = some proj → u.role = "admin" →
      projectValid (applyUpdate proj b) = true →
      updateProjectCtrl projects u pid b =
        (projects.map (fun p => if p.id == pid then applyUpdate proj b else p),
          { status := 200, success := true, data := some (applyUpdate proj b) }) ∧
      (applyUpdate proj b).slug = proj.slug := by
  intro projects u pid b proj hslug hfind hrole hval
  constructor
  · simp [updateProjectCtrl, hfind, hrole, hval]
  · simp [applyUpdate, hslug]

/-- Witness for C2 as amended, at the concrete stored project and
title-changing body. -/
theorem C2_witness :
    findById [c2Project] 1 = some c2Project ∧
    (applyUpdate c2Project c2Body).slug = c2Project.slug :=
  ⟨by decide,
    (C2_update_keeps_old_slug [c2Project] c2Admin 1 c2Body c2Project rfl (by decide) rfl
      (by decide)).2⟩

/-! ## Claim C3 -/

/-- Counterexample to claim C3 as stated: an authenticated editor who
is the creator of the project calls the update route; the claim says the
owner succeeds, but the route chain protect then authorize admin answers
403 and leaves the store unchanged, because the routes gate on the admin
role alone. -/
theorem C3_counterexample :
    (runUpdateProject [c3Owner] (some c3Jwt) [c3Project] 1 emptyUpdate).2.status = 403 ∧
    (runUpdateProject [c3Owner] (some c3Jwt) [c3Project] 1 emptyUpdate).1 = [c3Project] ∧
    c3Project.createdBy = c3Owner.id ∧
    c3Owner.role ≠ "admin" :=
  ⟨rfl, rfl, rfl, by decide⟩

/-- Claim C3 as amended: the mutating project routes succeed exactly for
authenticated admins; every other authenticated user, the owner
included, receives the 403 with the store unchanged, and anonymous calls
receive the 401.  The in-controller owner-or-admin fallback answers 401,
not 403, and is unreachable for non-admins behind the route gate. -/
theorem C3_mutations_admin_gated :
    ∀ (users : List User) (projects : List Project) (pid : Nat) (body : UpdateBody),
      (runUpdateProject users none projects pid body = (projects, resp401) ∧
        runDeleteProject users none projects pid = (projects, resp401)) ∧
      (∀ (t : Jwt) (uid : Nat) (u : User),
        jwtVerify t = some uid → findUserById users uid = some u → u.role ≠ "admin" →
        runUpdateProject users (some t) projects pid body = (projects, resp403 u.role) ∧
        runDeleteProject users (some t) projects pid = (projects, resp403 u.role)) ∧
      (∀ (t : Jwt) (uid : Nat) (u : User) (proj : Project),
        jwtVerify t = some uid → findUserById users uid = some u → u.role = "admin" →
        findById projects pid = some proj →
        ((runDeleteProject users (some t) projects pid).2.status = 200 ∧
          (runDeleteProject users (some t) projects pid).1 =
            projects.filter (fun p => p.id != pid)) ∧
        (projectValid (applyUpdate proj body) = true →
          (runUpdateProject users (some t) projects pid body).2.status = 200 ∧
          (runUpdateProject users (some t) projects pid body).1 =
            projects.map (fun p => if p.id == pid then applyUpdate proj body else p))) := by
  intro users projects pid body
  refine ⟨⟨rfl, rfl⟩, ?_, ?_⟩
  · intro t uid u hv hf hr
    have hb : ("admin" == u.role) = false := beq_eq_false_iff_ne.mpr (Ne.symm hr)
    constructor <;>
      simp [runUpdateProject, runDeleteProject, roleGate, protect, authorize, hv, hf, hb]
  · intro t uid u proj hv hf hr hfp
    have hb : ("admin" == u.role) = true := by simp [hr]
    have hgate : roleGate ["admin"] users (some t) = GateResult.pass u := by
      simp [roleGate, protect, authorize, hv, hf, hb]
    constructor
    · constructor <;>
        simp [runDeleteProject, hgate, deleteProjectCtrl, hfp, hr]
    · intro hval
      constructor <;>
        simp [runUpdateProject, hgate, updateProjectCtrl, hfp, hr, hval]

/-- Witness for C3 as amended: a concrete authenticated non-admin is
answered with the 403 envelope and an unchanged store. -/
theorem C3_witness :
    runUpdateProject [c3wUser] (some c3wJwt) [] 1 emptyUpdate = ([], resp403 "viewer") :=
  ((C3_mutations_admin_gated [c3wUser] [] 1 emptyUpdate).2.1 c3wJwt 2 c3wUser rfl rfl
    (by decide)).1

/-! ## Claim C4 -/

/-- Claim C4: for every well-formed contact payload, submit persists
exactly one new Contact record whose status field equals new, and the
response body reports success true (with the 201 envelope), provided the
two awaited notification dispatches succeed. -/
theorem C4_submit_persists_new :
    ∀ (store : List ContactRec) (body : ContactBody) (now : Nat) (send : EmailMsg → Bool),
      contactValid (mkContact body now) = true →
      send (adminMsg body) = true → send (userMsg body) = true →
      submitContact store body now send =
        (store ++ [mkContact body now], [adminMsg body, userMsg body], contactSubmitOk) ∧
      (mkContact body now).status = "new" ∧
      contactSubmitOk.success = true ∧ contactSubmitOk.status = 201 := by
  intro store body now send hv h1 h2
  refine ⟨?_, rfl, rfl, rfl⟩
  simp [submitContact, contactSave, hv, h1, h2]

/-- Witness for C4 at a concrete well-formed submission with succeeding
dispatches. -/
theorem C4_witness :
    contactValid (mkContact demoContactBody 5) = true ∧
    submitContact [] demoContactBody 5 (fun _ => true) =
      ([mkContact demoContactBody 5], [adminMsg demoContactBody, userMsg demoContactBody],
        contactSubmitOk) :=
  ⟨by decide,
    (C4_submit_persists_new [] demoContactBody 5 (fun _ => true) (by decide) rfl rfl).1⟩

/-! ## Claim C5 -/

/-- Claim C5: both notification emails are awaited before the success
response is returned (a success response entails both dispatches were
attempted and succeeded), and if either send fails the response is the
generic 500 while the already persisted Contact record remains stored. -/
theorem C5_sends_awaited_record_kept :
    ∀ (store : List ContactRec) (body : ContactBody) (now : Nat) (send : EmailMsg → Bool),
      contactValid (mkContact body now) = true →
      ((submitContact store body now send).2.2.success = true →
        send (adminMsg body) = true ∧ send (userMsg body) = true ∧
        (submitContact store body now send).2.1 = [adminMsg body, userMsg body]) ∧
      ((send (adminMsg body) = false ∨ send (userMsg body) = false) →
        (submitContact store body now send).2.2 = contactSubmitErr ∧
        (submitContact store body now send).1 = store ++ [mkContact body now]) := by
  intro store body now send hv
  cases h1 : send (adminMsg body) <;> cases h2 : send (userMsg body) <;>
    simp [submitContact, contactSave, hv, h1, h2, contactSubmitErr, contactSubmitOk]

/-- Witness for C5: with the admin dispatch failing, the response is the
generic 500 and the record is still appended to the store. -/
theorem C5_witness :
    (submitContact [] demoContactBody 5 failSend).2.2 = contactSubmitErr ∧
    (submitContact [] demoContactBody 5 failSend).1 = [mkContact demoContactBody 5] :=
  (C5_sends_awaited_record_kept [] demoContactBody 5 failSend (by decide)).2
    (Or.inl (by decide))

/-! ## Claim C6 -/

/-- From a valid contact document it follows that the stored email
matches the pattern. -/
theorem contactValid_email (c : ContactRec) :
    contactValid c = true → emailMatch c.email = true := by
  intro h
  by_cases he : c.email == ""
  · exfalso
    simp [contactValid, contactErrMsgs, he] at h
  · by_cases hm : emailMatch c.email
    · exact hm
    · exfalso
      simp [contactValid, contactErrMsgs, he, hm] at h

/-- Counterexample to claim C6 as stated: a submission whose email does
not match the pattern leaves the store unchanged, but the response
produced by the controller is the generic 500, not a 400-class
validation rejection. -/
theorem C6_counterexample :
    (submitContact [] c6Body 0 (fun _ => true)).2.2.status = 500 ∧
    (submitContact [] c6Body 0 (fun _ => true)).2.2.status ≠ 400 ∧
    (submitContact [] c6Body 0 (fun _ => true)).1 = [] ∧
    emailMatch "not-an-email" = false :=
  ⟨rfl, by decide, rfl, by decide⟩

/-- Claim C6 as amended: a contact payload whose email fails the
pattern is rejected by the schema validation (the save is a
ValidationError) and no record is persisted; the controller catch maps
the failure to the generic 500 response rather than a 400. -/
theorem C6_invalid_email_rejected :
    ∀ (store : List ContactRec) (body : ContactBody) (now : Nat) (send : EmailMsg → Bool),
      emailMatch (mkContact body now).email = false →
      isValidationFailure (contactSave (mkContact body now)) = true ∧
      submitContact store body now send = (store, [], contactSubmitErr) := by
  intro store body now send hm
  have hinv : contactValid (mkContact body now) = false := by
    cases hcv : contactValid (mkContact body now) with
    | false => rfl
    | true => exact absurd (contactValid_email _ hcv) (by simp [hm])
  constructor
  · simp [isValidationFailure, contactSave, hinv]
  · simp [submitContact, contactSave, hinv]

/-- Witness for C6 as amended, at the concrete invalid submission. -/
theorem C6_witness :
    isValidationFailure (contactSave (mkContact c6Body 0)) = true ∧
    submitContact [] c6Body 0 (fun _ => true) = ([], [], contactSubmitErr) :=
  C6_invalid_email_rejected [] c6Body 0 (fun _ => true) (by decide)

/-! ## Claim C7 -/

/-- Counterexample to claim C7 as stated: a file named a.xjpg, whose
extension is none of jpeg, jpg, png, webp, is nevertheless accepted with
a 200, because the unanchored filter regex only tests substring
containment and dot-xjpg contains jpg. -/
theorem C7_counterexample :
    (uploadProjectImage (some c7File) 0).status = 200 ∧
    (uploadProjectImage (some c7File) 0).success = true ∧
    extExactlyAllowed c7File.originalname = false :=
  ⟨rfl, rfl, by decide⟩

/-- Claim C7 as amended: the upload accepts a file exactly when its size
is at most 5000000 bytes and both the lowercased extension and the
declared content type contain one of jpeg, jpg, png, webp as a
substring; every rejection is a 400, and an accepted file yields the
stored-path reference built from the upload time and the original
extension. -/
theorem C7_upload_filter :
    ∀ (f : UpFile) (now : Nat),
      ((uploadProjectImage (some f) now).status = 200 ↔
        (f.size ≤ 5000000 ∧ ftTest (lowerStr (extname f.originalname)) = true ∧
          ftTest f.mimetype = true)) ∧
      ((uploadProjectImage (some f) now).status = 200 →
        (uploadProjectImage (some f) now).filePath =
          some ("/uploads/projects/" ++
            ("project-" ++ toString now ++ extname f.originalname))) ∧
      ((uploadProjectImage (some f) now).status ≠ 200 →
        (uploadProjectImage (some f) now).status = 400 ∧
        (uploadProjectImage (some f) now).success = false) := by
  intro f now
  by_cases hs : f.size > 5000000 <;>
    by_cases hm : ftTest f.mimetype <;>
      by_cases he : ftTest (lowerStr (extname f.originalname)) <;>
        simp [uploadProjectImage, multerSingle, checkFileType, hs, hm, he] <;>
          omega

/-- Witness for C7 as amended: a well-typed small image is accepted. -/
theorem C7_witness :
    (uploadProjectImage (some c7Good) 3).status = 200 :=
  (C7_upload_filter c7Good 3).1.mpr ⟨by decide, by decide, by decide⟩

/-! ## Claim C8 -/

/-- Claim C8: every storage-layer duplicate-key error (code 11000, and
not shaped like a schema ValidationError) is mapped by the central
handler to a 400 whose envelope carries success false and the fixed
human-readable message, never the raw storage-layer text. -/
theorem C8_duplicate_key_mapped :
    ∀ (e : JsErr), e.code = some 11000 → e.name ≠ "ValidationError" →
      errorHandler e =
        { status := 400, success := false
          error := ErrMsg.str "Duplicate field value entered" } := by
  intro e hc hn
  have hb : (e.name == "ValidationError") = false := beq_eq_false_iff_ne.mpr hn
  simp [errorHandler, hc, hb]

/-- Witness for C8 at a concrete driver error carrying raw E11000
text. -/
theorem C8_witness :
    errorHandler (dupKeyErr "E11000 duplicate key error collection projects index slug") =
      { status := 400, success := false
        error := ErrMsg.str "Duplicate field value entered" } :=
  C8_duplicate_key_mapped
    (dupKeyErr "E11000 duplicate key error collection projects index slug") rfl (by decide)

/-! ## Claim C9 -/

/-- Counterexample to claim C9 as stated: the claim admits editors to
the contact management operations, but the routes gate them with
authorize admin, so an authenticated editor is answered 403. -/
theorem C9_counterexample :
    contactManageGate [c9Editor] (some c9Jwt) = GateResult.err403 "editor" ∧
    c9Editor.role = "editor" :=
  ⟨rfl, rfl⟩

/-- Claim C9 as amended: the contact management routes pass exactly the
authenticated admins and answer 403 to every other authenticated role,
editors included; updateStatus (modelled from the spec, the controller
body being absent from the sources) sets the new status and refreshes
lastUpdated. -/
theorem C9_contact_admin_only :
    ∀ (users : List User) (t : Jwt) (uid : Nat) (u : User),
      jwtVerify t = some uid → findUserById users uid = some u →
      ((contactManageGate users (some t) = GateResult.pass u) ↔ u.role = "admin") ∧
      (u.role ≠ "admin" → contactManageGate users (some t) = GateResult.err403 u.role) ∧
      (∀ (c : ContactRec) (s : String) (now : Nat),
        (updateContactStatus c s now).lastUpdated = now ∧
        (updateContactStatus c s now).status = s) := by
  intro users t uid u hv hf
  refine ⟨?_, ?_, fun c s now => ⟨rfl, rfl⟩⟩
  · by_cases hr : u.role = "admin"
    · have hb : ("admin" == u.role) = true := by simp [hr]
      simp [contactManageGate, roleGate, protect, authorize, hv, hf, hb, hr]
    · have hb : ("admin" == u.role) = false := beq_eq_false_iff_ne.mpr (Ne.symm hr)
      simp [contactManageGate, roleGate, protect, authorize, hv, hf, hb, hr]
  · intro hr
    have hb : ("admin" == u.role) = false := beq_eq_false_iff_ne.mpr (Ne.symm hr)
    simp [contactManageGate, roleGate, protect, authorize, hv, hf, hb]

/-- Witness for C9 as amended: the concrete editor is answered 403 by
the contact management gate. -/
theorem C9_witness :
    contactManageGate [c9Editor] (some c9Jwt) = GateResult.err403 c9Editor.role :=
  (C9_contact_admin_only [c9Editor] c9Jwt 2 c9Editor rfl rfl).2.1 (by decide)

/-! ## Claim C10 -/

/-- Claim C10: a token that verifies but whose encoded id resolves to no
stored user makes protect attach a null user and pass the request on
rather than answering 401, and any subsequent authorize role check
dereferences the null user and throws. -/
theorem C10_valid_token_unknown_user :
    ∀ (users : List User) (t : Jwt) (uid : Nat),
      jwtVerify t = some uid → findUserById users uid = none →
      protect users (some t) = ProtectResult.next none ∧
      (∀ roles : List String, authorize roles none = AuthzResult.nullDeref) := by
  intro users t uid hv hf
  exact ⟨by simp [protect, hv, hf], fun roles => rfl⟩

/-- Witness for C10 at a concrete verifying token over an empty user
collection. -/
theorem C10_witness :
    protect [] (some c10Jwt) = ProtectResult.next none ∧
    authorize ["admin"] none = AuthzResult.nullDeref :=
  ⟨(C10_valid_token_unknown_user [] c10Jwt 5 rfl rfl).1,
    (C10_valid_token_unknown_user [] c10Jwt 5 rfl rfl).2 ["admin"]⟩

end XTech
